import Mathlib

/-!
Shallow embedding of `src/check.mjs` from book000/copilot-review-enforcer.

The program is a CI gate over a pull request: it fetches review threads
(GraphQL, last 100 threads, first comment of each) and reviews (REST),
then decides a pass/fail exit code from two pure checks:
`checkUnresolvedComments` and `isPendingReview`, combined in `main`.

All definitions below are translated from the source; definitions whose
doc comment says "From the spec's words" exist only to compare a spec
formulation against the code.
-/

namespace Checker

/-- A review comment as consumed by the filter: only the author login is read
(`comment.author.login`). -/
structure Comment where
  authorLogin : String
deriving DecidableEq, Repr

/-- A review thread as returned by the GraphQL query: `isResolved` and the
list of fetched comments (the query requests `comments(first: 1)`, so the
program only ever receives at most one comment per thread). -/
structure ReviewThread where
  isResolved : Bool
  comments : List Comment
deriving DecidableEq, Repr

/-- A review as consumed by `isPendingReview`: `review.user.login` and
`review.state`. -/
structure Review where
  userLogin : String
  state : String
deriving DecidableEq, Repr

/-- `listStartsWith pat s` is true when `pat` is an initial segment of `s`.
Used to model JavaScript substring search. -/
def listStartsWith : List Char → List Char → Bool
  | [], _ => true
  | _ :: _, [] => false
  | p :: ps, c :: cs => p == c && listStartsWith ps cs

/-- `listIndexOf pat s` is the index of the first occurrence of `pat` in `s`,
or `none` — the semantics of JavaScript `String.indexOf` with a string
pattern. -/
def listIndexOf (pat : List Char) : List Char → Option Nat
  | [] => if listStartsWith pat [] then some 0 else none
  | c :: rest =>
    if listStartsWith pat (c :: rest) then some 0
    else (listIndexOf pat rest).map (fun i => i + 1)

/-- JavaScript `s.replace(pat, repl)` with a string pattern: replaces only the
first occurrence of `pat` in `s`, wherever it occurs; `s` unchanged when `pat`
does not occur. -/
def replaceFirst (s pat repl : String) : String :=
  match listIndexOf pat.data s.data with
  | none => s
  | some i => ⟨s.data.take i ++ repl.data ++ s.data.drop (i + pat.data.length)⟩

/-- The second match candidate of the thread filter (src/check.mjs line 84):
`targetLogin.replace("[bot]", "")`. -/
def botCandidate (targetLogin : String) : String :=
  replaceFirst targetLogin "[bot]" ""

/-- The thread filter predicate of `checkUnresolvedComments`
(src/check.mjs lines 78-86): the thread is not resolved and some fetched
comment's author login equals `targetLogin` or equals
`targetLogin.replace("[bot]", "")`. -/
def threadMatches (targetLogin : String) (thread : ReviewThread) : Bool :=
  !thread.isResolved &&
    thread.comments.any (fun comment =>
      comment.authorLogin == targetLogin ||
      comment.authorLogin == botCandidate targetLogin)

/-- The pure decision of `checkUnresolvedComments` (src/check.mjs lines
78-96), given the fetched threads: returns `false` (gate-failing) when the
filtered list is non-empty, `true` when all comments are resolved. -/
def checkUnresolvedComments (threads : List ReviewThread)
    (targetLogin : String) : Bool :=
  let unresolvedComments := threads.filter (threadMatches targetLogin)
  if unresolvedComments.length > 0 then false else true

/-- `isPendingReview` (src/check.mjs lines 109-127), given the fetched
reviews: true iff some review has `user.login === targetLogin` and
`state === "PENDING"`. -/
def isPendingReview (reviews : List Review) (targetLogin : String) : Bool :=
  reviews.any (fun review =>
    review.userLogin == targetLogin && review.state == "PENDING")

/-- Outcome of running `checkUnresolvedComments` including its fetch: either
the process exited inside `fetchReviewComments`'s catch block, or the pure
decision was returned to `main`. -/
inductive CheckOutcome where
  | exited (code : Nat)
  | returned (result : Bool)
deriving DecidableEq, Repr

/-- `checkUnresolvedComments` together with the `fetchReviewComments` call it
starts with (src/check.mjs lines 35-48 and 60-97): a failed GraphQL fetch is
caught and the process exits with code 1 before the thread filter runs; a
successful fetch feeds the threads to the pure decision. -/
def checkUnresolvedCommentsRun (fetched : Except String (List ReviewThread))
    (targetLogin : String) : CheckOutcome :=
  match fetched with
  | .error _ => .exited 1
  | .ok threads => .returned (checkUnresolvedComments threads targetLogin)

/-- JavaScript `parseInt(s, 10)`: skip leading whitespace, optional sign,
then the longest digit run; `none` models `NaN` (no digits). -/
def parseIntJS (s : String) : Option Int :=
  let cs := s.data.dropWhile (fun c => c.isWhitespace)
  let signAndRest : Int × List Char :=
    match cs with
    | '-' :: t => (-1, t)
    | '+' :: t => (1, t)
    | t => (1, t)
  let digits := signAndRest.2.takeWhile (fun c => c.isDigit)
  if digits.isEmpty then none
  else some (signAndRest.1 *
    Int.ofNat (digits.foldl (fun acc c => acc * 10 + (c.toNat - 48)) 0))

/-- The raw invocation environment read by `main` (src/check.mjs lines
130-147): the five action inputs (`core.getInput` returns `""` when unset),
the `GITHUB_TOKEN` environment variable (`none` when unset), and the CI
context fallbacks (`github.context.repo` and `github.context.issue.number`,
the latter `none` when the event has no issue/PR number). -/
structure RawInputs where
  inputToken : String
  inputOwner : String
  inputRepo : String
  inputPullRequestNumber : String
  inputTargetLogin : String
  envGithubToken : Option String
  contextOwner : String
  contextRepo : String
  contextIssueNumber : Option Int
deriving DecidableEq, Repr

/-- Line 139: `inputToken !== "" ? inputToken : process.env.GITHUB_TOKEN`.
`none` models the JavaScript value `undefined`. -/
def resolvedToken (r : RawInputs) : Option String :=
  if r.inputToken ≠ "" then some r.inputToken else r.envGithubToken

/-- Line 140: `inputOwner !== "" ? inputOwner : github.context.repo.owner`. -/
def resolvedOwner (r : RawInputs) : String :=
  if r.inputOwner ≠ "" then r.inputOwner else r.contextOwner

/-- Line 141: `inputRepo !== "" ? inputRepo : github.context.repo.repo`. -/
def resolvedRepo (r : RawInputs) : String :=
  if r.inputRepo ≠ "" then r.inputRepo else r.contextRepo

/-- Lines 142-147: `parseInt(input !== "" ? input : context.issue.number, 10)`.
When the input is non-empty it is parsed; otherwise the context number is
used (an integer round-trips through `parseInt(String(n), 10)` unchanged, and
a missing context number gives `parseInt(undefined, 10) = NaN`, i.e.
`none`). -/
def resolvedPullRequestNumber (r : RawInputs) : Option Int :=
  if r.inputPullRequestNumber ≠ "" then parseIntJS r.inputPullRequestNumber
  else r.contextIssueNumber

/-- JavaScript falsiness of a string value: only `""` is falsy here. -/
def strFalsy (s : String) : Bool := s == ""

/-- JavaScript falsiness of the parsed pull-request number: `NaN` (`none`)
and `0` are falsy. -/
def numFalsy : Option Int → Bool
  | none => true
  | some n => n == 0

/-- Lines 152-158: the keys of `required` whose value is falsy, in object
order `owner, repo, pullRequestNumber, targetLogin`. Note the source does
not include `token` in `required`. -/
def missingInputs (r : RawInputs) : List String :=
  (([("owner", strFalsy (resolvedOwner r)),
     ("repo", strFalsy (resolvedRepo r)),
     ("pullRequestNumber", numFalsy (resolvedPullRequestNumber r)),
     ("targetLogin", strFalsy r.inputTargetLogin)].filter
      (fun p => p.2)).map (fun p => p.1))

/-- JavaScript falsiness of the resolved token value: `undefined` (`none`)
and the empty string are falsy. -/
def tokenFalsy : Option String → Bool
  | none => true
  | some s => s == ""

/-- How `main` terminated: early return on missing inputs (lines 159-165,
`process.exitCode = 1`), crash inside `github.getOctokit(token)` at line
167 — `@actions/github`'s `getAuthString` throws on a falsy token, and the
unhandled rejection of the top-level `main()` call terminates the process
with a non-zero code — hard exit inside the thread fetch's catch block
(line 46, `process.exit(1)`), or normal completion with the computed exit
code (line 187). -/
inductive MainResult where
  | configError (missing : List String)
  | tokenError
  | fetchFailed
  | completed (exitCode : Nat)
deriving DecidableEq, Repr

/-- The process exit code each `MainResult` stands for. -/
def MainResult.exitCode : MainResult → Nat
  | .configError _ => 1
  | .tokenError => 1
  | .fetchFailed => 1
  | .completed c => c

/-- `main` (src/check.mjs lines 129-188), given the raw environment and the
results of the two remote reads. The second component records which API
Client operations were invoked, in order: none on the configuration-error
early return; none when `github.getOctokit(token)` throws on a falsy token
at line 167 (before any API call); `listReviews` (inside `isPendingReview`)
and then the GraphQL `fetchReviewComments` otherwise. The exit code starts
at 0, becomes 1 when `isPendingReview` is true, and becomes 1 when
`checkUnresolvedComments` returns false. -/
def mainRun (r : RawInputs) (reviews : List Review)
    (threadsFetch : Except String (List ReviewThread)) :
    MainResult × List String :=
  if missingInputs r ≠ [] then (.configError (missingInputs r), [])
  else if tokenFalsy (resolvedToken r) then (.tokenError, [])
  else
    let pendingExit : Nat :=
      if isPendingReview reviews r.inputTargetLogin then 1 else 0
    let callLog := ["listReviews", "fetchReviewComments"]
    match checkUnresolvedCommentsRun threadsFetch r.inputTargetLogin with
    | .exited _ => (.fetchFailed, callLog)
    | .returned result =>
      (.completed (if result then pendingExit else 1), callLog)

/-- From the spec's words only (used to compare the spec's "trailing
bot-suffix stripped" phrasing against the code): remove a trailing
`"[bot]"` suffix when present, otherwise leave the login unchanged. -/
def stripTrailingBot (s : String) : String :=
  if listStartsWith "[bot]".data.reverse s.data.reverse
  then ⟨s.data.take (s.data.length - 5)⟩ else s

/-- From the spec's words only: the per-thread match rule as the claim states
it — the thread is unresolved and its first comment's author equals the
target login or the target login with a trailing `"[bot]"` suffix
stripped. -/
def specThreadMatches (targetLogin : String) (t : ReviewThread) : Bool :=
  !t.isResolved &&
    (match t.comments.head? with
     | some c =>
       c.authorLogin == targetLogin ||
       c.authorLogin == stripTrailingBot targetLogin
     | none => false)

theorem threadMatches_iff (target : String) (t : ReviewThread) :
    threadMatches target t = true ↔
      t.isResolved = false ∧ ∃ c ∈ t.comments,
        (c.authorLogin = target ∨ c.authorLogin = botCandidate target) := by
  simp [threadMatches, Bool.and_eq_true, Bool.not_eq_true', List.any_eq_true,
    Bool.or_eq_true, beq_iff_eq]

theorem checkUnresolvedComments_false_iff (threads : List ReviewThread)
    (target : String) :
    checkUnresolvedComments threads target = false ↔
      ∃ t ∈ threads, threadMatches target t = true := by
  unfold checkUnresolvedComments
  by_cases h : 0 < (threads.filter (threadMatches target)).length
  · obtain ⟨t, ht⟩ := List.exists_mem_of_length_pos h
    have hmem := List.mem_filter.mp ht
    rw [if_pos h]
    exact iff_of_true rfl ⟨t, hmem.1, hmem.2⟩
  · rw [if_neg h]
    rw [Nat.pos_iff_ne_zero, ne_eq, not_not, List.length_eq_zero] at h
    constructor
    · intro hc; exact absurd hc (by simp)
    · rintro ⟨t, htm, hm⟩
      have : t ∈ threads.filter (threadMatches target) :=
        List.mem_filter.mpr ⟨htm, hm⟩
      rw [h] at this
      exact absurd this (List.not_mem_nil t)

theorem checkUnresolvedComments_true_iff (threads : List ReviewThread)
    (target : String) :
    checkUnresolvedComments threads target = true ↔
      ∀ t ∈ threads, threadMatches target t = false := by
  have key := checkUnresolvedComments_false_iff threads target
  constructor
  · intro h t ht
    cases hm : threadMatches target t
    · rfl
    · have hf := key.mpr ⟨t, ht, hm⟩
      rw [h] at hf
      exact absurd hf (by simp)
  · intro h
    cases hc : checkUnresolvedComments threads target
    · obtain ⟨t, ht, hm⟩ := key.mp hc
      rw [h t ht] at hm
      exact absurd hm (by simp)
    · rfl

theorem mainRun_ok (r : RawInputs) (reviews : List Review)
    (threads : List ReviewThread) (h : missingInputs r = [])
    (ht : tokenFalsy (resolvedToken r) = false) :
    mainRun r reviews (Except.ok threads) =
      (.completed
        (if checkUnresolvedComments threads r.inputTargetLogin then
          (if isPendingReview reviews r.inputTargetLogin then 1 else 0)
         else 1),
       ["listReviews", "fetchReviewComments"]) := by
  unfold mainRun
  rw [if_neg (by simp [h]), if_neg (by simp [ht])]
  rfl

theorem mainRun_error (r : RawInputs) (reviews : List Review) (e : String)
    (h : missingInputs r = [])
    (ht : tokenFalsy (resolvedToken r) = false) :
    mainRun r reviews (Except.error e) =
      (.fetchFailed, ["listReviews", "fetchReviewComments"]) := by
  unfold mainRun
  rw [if_neg (by simp [h]), if_neg (by simp [ht])]
  rfl

theorem mainRun_ok_exitCode (r : RawInputs) (reviews : List Review)
    (threads : List ReviewThread) (h : missingInputs r = [])
    (ht : tokenFalsy (resolvedToken r) = false) :
    (mainRun r reviews (Except.ok threads)).1.exitCode =
      if (isPendingReview reviews r.inputTargetLogin = false ∧
          checkUnresolvedComments threads r.inputTargetLogin = true)
      then 0 else 1 := by
  rw [mainRun_ok r reviews threads h ht]
  cases hc : checkUnresolvedComments threads r.inputTargetLogin <;>
    cases hp : isPendingReview reviews r.inputTargetLogin <;>
    simp [MainResult.exitCode]

/-- Claim C1: when every required input is present (including a non-falsy
token, so `getOctokit` succeeds) and both remote fetches succeed, the
process exit code is 0 iff the target login has no review in PENDING state
and no unresolved review thread matches the target login; in every other
case the exit code is 1. -/
theorem main_exit_zero_iff_both_checks_pass (r : RawInputs)
    (reviews : List Review) (threads : List ReviewThread)
    (h : missingInputs r = [])
    (ht : tokenFalsy (resolvedToken r) = false) :
    ((mainRun r reviews (Except.ok threads)).1.exitCode = 0 ↔
      (isPendingReview reviews r.inputTargetLogin = false ∧
       ∀ t ∈ threads, threadMatches r.inputTargetLogin t = false)) ∧
    ((mainRun r reviews (Except.ok threads)).1.exitCode = 0 ∨
     (mainRun r reviews (Except.ok threads)).1.exitCode = 1) := by
  rw [mainRun_ok_exitCode r reviews threads h ht]
  by_cases hP : (isPendingReview reviews r.inputTargetLogin = false ∧
      checkUnresolvedComments threads r.inputTargetLogin = true)
  · rw [if_pos hP]
    refine ⟨⟨fun _ => ⟨hP.1, ?_⟩, fun _ => rfl⟩, Or.inl rfl⟩
    exact (checkUnresolvedComments_true_iff threads r.inputTargetLogin).mp hP.2
  · rw [if_neg hP]
    refine ⟨⟨fun h0 => absurd h0 (by simp), fun hg => absurd ?_ hP⟩,
      Or.inr rfl⟩
    exact ⟨hg.1,
      (checkUnresolvedComments_true_iff threads r.inputTargetLogin).mpr hg.2⟩

/-- Witness for C1 at a concrete invocation: inputs all present, no reviews,
no threads, so the exit code is 0 and both checks pass. -/
theorem main_exit_zero_iff_both_checks_pass_witness :
    missingInputs ⟨"tok", "o", "r", "1", "bot", none, "", "", none⟩ = [] ∧
    tokenFalsy
      (resolvedToken ⟨"tok", "o", "r", "1", "bot", none, "", "", none⟩) =
      false ∧
    (((mainRun ⟨"tok", "o", "r", "1", "bot", none, "", "", none⟩ []
        (Except.ok [])).1.exitCode = 0 ↔
      (isPendingReview [] "bot" = false ∧
       ∀ t ∈ ([] : List ReviewThread), threadMatches "bot" t = false)) ∧
     ((mainRun ⟨"tok", "o", "r", "1", "bot", none, "", "", none⟩ []
        (Except.ok [])).1.exitCode = 0 ∨
      (mainRun ⟨"tok", "o", "r", "1", "bot", none, "", "", none⟩ []
        (Except.ok [])).1.exitCode = 1)) :=
  ⟨by decide, by decide,
   main_exit_zero_iff_both_checks_pass
     ⟨"tok", "o", "r", "1", "bot", none, "", "", none⟩ [] [] (by decide)
     (by decide)⟩

/-- Claim C3 (amended): when any of owner, repo, pullRequestNumber or
targetLogin is missing or falsy after fallbacks, `main` returns the
configuration-error result carrying the names of the missing fields, the
exit code is 1, and no API Client operation is invoked (empty call log);
the token field is not part of this validation. -/
theorem missing_inputs_config_error (r : RawInputs) (reviews : List Review)
    (tf : Except String (List ReviewThread)) (h : missingInputs r ≠ []) :
    mainRun r reviews tf = (.configError (missingInputs r), []) ∧
    (mainRun r reviews tf).1.exitCode = 1 := by
  have h1 : mainRun r reviews tf = (.configError (missingInputs r), []) := by
    unfold mainRun
    rw [if_pos h]
  exact ⟨h1, by rw [h1]; rfl⟩

/-- Witness for the amended C3 at a concrete invocation with an empty
target login. -/
theorem missing_inputs_config_error_witness :
    missingInputs ⟨"tok", "o", "r", "1", "", none, "", "", none⟩ ≠ [] ∧
    (mainRun ⟨"tok", "o", "r", "1", "", none, "", "", none⟩ []
        (Except.ok []) =
      (.configError
        (missingInputs ⟨"tok", "o", "r", "1", "", none, "", "", none⟩),
       []) ∧
     (mainRun ⟨"tok", "o", "r", "1", "", none, "", "", none⟩ []
        (Except.ok [])).1.exitCode = 1) :=
  ⟨by decide,
   missing_inputs_config_error ⟨"tok", "o", "r", "1", "", none, "", "", none⟩
     [] (Except.ok []) (by decide)⟩

/-- Counterexample to C3 as stated: with the token input empty and
`GITHUB_TOKEN` unset (so the resolved token is missing) but all other
inputs present, the required-input validation finds nothing missing, and
`main` does not take the configuration-error path: instead
`github.getOctokit(token)` throws at line 167. The process does exit 1
without invoking the API Client, but it never logs which fields are
missing — the outcome is the token crash, not a configuration error
naming the missing field. -/
theorem missing_token_not_config_error_counterexample :
    resolvedToken ⟨"", "o", "r", "1", "t", none, "", "", none⟩ = none ∧
    missingInputs ⟨"", "o", "r", "1", "t", none, "", "", none⟩ = [] ∧
    mainRun ⟨"", "o", "r", "1", "t", none, "", "", none⟩ [] (Except.ok []) =
      (.tokenError, []) ∧
    (mainRun ⟨"", "o", "r", "1", "t", none, "", "", none⟩ []
      (Except.ok [])).1.exitCode = 1 := by
  decide

/-- Claim C4: `isPendingReview` is true iff some review has author login
equal to the target login and state `"PENDING"`, and is false on the empty
review list. -/
theorem isPendingReview_iff (reviews : List Review) (targetLogin : String) :
    (isPendingReview reviews targetLogin = true ↔
      ∃ review ∈ reviews,
        review.userLogin = targetLogin ∧ review.state = "PENDING") ∧
    isPendingReview [] targetLogin = false := by
  constructor
  · simp [isPendingReview, List.any_eq_true, Bool.and_eq_true, beq_iff_eq]
  · rfl

/-- Claim C5: when the review-thread fetch is attempted (inputs present,
token non-falsy so `getOctokit` succeeded) and throws, `main` terminates
through the fetch-failure exit with code 1, and the thread evaluator is
never reached — the check's outcome is an exit, never a returned
evaluation. -/
theorem fetch_error_terminates (r : RawInputs) (reviews : List Review)
    (e : String) (h : missingInputs r = [])
    (ht : tokenFalsy (resolvedToken r) = false) :
    (mainRun r reviews (Except.error e)).1 = .fetchFailed ∧
    (mainRun r reviews (Except.error e)).1.exitCode = 1 ∧
    ∀ b : Bool, checkUnresolvedCommentsRun (Except.error e)
      r.inputTargetLogin ≠ CheckOutcome.returned b := by
  rw [mainRun_error r reviews e h ht]
  exact ⟨rfl, rfl, fun b hb => by simp [checkUnresolvedCommentsRun] at hb⟩

/-- Witness for C5 at a concrete invocation whose GraphQL fetch fails. -/
theorem fetch_error_terminates_witness :
    missingInputs ⟨"tok", "o", "r", "1", "bot", none, "", "", none⟩ = [] ∧
    tokenFalsy
      (resolvedToken ⟨"tok", "o", "r", "1", "bot", none, "", "", none⟩) =
      false ∧
    ((mainRun ⟨"tok", "o", "r", "1", "bot", none, "", "", none⟩ []
        (Except.error "boom")).1 = .fetchFailed ∧
     (mainRun ⟨"tok", "o", "r", "1", "bot", none, "", "", none⟩ []
        (Except.error "boom")).1.exitCode = 1 ∧
     ∀ b : Bool, checkUnresolvedCommentsRun (Except.error "boom") "bot" ≠
       CheckOutcome.returned b) :=
  ⟨by decide, by decide,
   fetch_error_terminates ⟨"tok", "o", "r", "1", "bot", none, "", "", none⟩
     [] "boom" (by decide) (by decide)⟩

/-- Claim C6: a thread with an empty comments list never matches, and
dropping such a thread from the fetched list does not change the
evaluator's decision; evaluation is total, so no crash is possible. -/
theorem empty_comments_thread_non_matching (target : String)
    (t : ReviewThread) (h : t.comments = []) :
    threadMatches target t = false ∧
    ∀ rest : List ReviewThread,
      checkUnresolvedComments (t :: rest) target =
        checkUnresolvedComments rest target := by
  have hm : threadMatches target t = false := by
    simp [threadMatches, h]
  refine ⟨hm, fun rest => ?_⟩
  unfold checkUnresolvedComments
  simp [List.filter_cons, hm]

/-- Witness for C6 at a concrete zero-comment thread. -/
theorem empty_comments_thread_non_matching_witness :
    (ReviewThread.mk false []).comments = [] ∧
    (threadMatches "bot" (ReviewThread.mk false []) = false ∧
     ∀ rest : List ReviewThread,
       checkUnresolvedComments (ReviewThread.mk false [] :: rest) "bot" =
         checkUnresolvedComments rest "bot") :=
  ⟨rfl, empty_comments_thread_non_matching "bot" (ReviewThread.mk false [])
    rfl⟩

/-- Claim C7: whenever the target login has a PENDING review, the final
exit code is 1 no matter what the thread fetch returns — the
unresolved-comment check can never revert the outcome to pass. -/
theorem pending_review_forces_exit_one (r : RawInputs)
    (reviews : List Review) (tf : Except String (List ReviewThread))
    (h : missingInputs r = [])
    (hp : isPendingReview reviews r.inputTargetLogin = true) :
    (mainRun r reviews tf).1.exitCode = 1 := by
  unfold mainRun
  rw [if_neg (by simp [h])]
  by_cases htok : tokenFalsy (resolvedToken r) = true
  · rw [if_pos htok]
    rfl
  · rw [if_neg htok]
    cases tf with
    | error e => rfl
    | ok threads =>
      simp only [checkUnresolvedCommentsRun, hp, if_true]
      cases checkUnresolvedComments threads r.inputTargetLogin <;> rfl

/-- Witness for C7 at a concrete invocation with a pending review by the
target and an all-resolved thread list. -/
theorem pending_review_forces_exit_one_witness :
    missingInputs
      ⟨"tok", "o", "r", "1", "copilot[bot]", none, "", "", none⟩ = [] ∧
    isPendingReview [Review.mk "copilot[bot]" "PENDING"] "copilot[bot]" =
      true ∧
    (mainRun ⟨"tok", "o", "r", "1", "copilot[bot]", none, "", "", none⟩
      [Review.mk "copilot[bot]" "PENDING"]
      (Except.ok [ReviewThread.mk true [Comment.mk "copilot[bot]"]])).1.exitCode
      = 1 :=
  ⟨by decide, by decide,
   pending_review_forces_exit_one
     ⟨"tok", "o", "r", "1", "copilot[bot]", none, "", "", none⟩
     [Review.mk "copilot[bot]" "PENDING"]
     (Except.ok [ReviewThread.mk true [Comment.mk "copilot[bot]"]])
     (by decide) (by decide)⟩

theorem head_exists_of_le_one (l : List Comment) (hl : l.length ≤ 1)
    (P : Comment → Prop) :
    (∃ c ∈ l, P c) ↔ (∃ c, l.head? = some c ∧ P c) := by
  cases l with
  | nil => simp
  | cons a l2 =>
    cases l2 with
    | nil => simp
    | cons b t =>
      simp only [List.length_cons] at hl
      omega

/-- Claim C2 (amended): over the data shape the program actually receives
(the GraphQL query fetches `comments(first: 1)`, so each thread carries at
most one comment), the evaluator reports a gate-failing match iff some
thread is unresolved and its first comment's author equals the target
login, or equals the target login with the first occurrence of the literal
substring "[bot]" removed (not only a trailing occurrence). -/
theorem checkUnresolvedComments_match_characterization
    (threads : List ReviewThread) (target : String)
    (h : ∀ t ∈ threads, t.comments.length ≤ 1) :
    checkUnresolvedComments threads target = false ↔
      ∃ t ∈ threads, t.isResolved = false ∧
        ∃ c, t.comments.head? = some c ∧
          (c.authorLogin = target ∨ c.authorLogin = botCandidate target) := by
  rw [checkUnresolvedComments_false_iff]
  constructor
  · rintro ⟨t, ht, hm⟩
    rw [threadMatches_iff] at hm
    exact ⟨t, ht, hm.1, (head_exists_of_le_one t.comments (h t ht) _).mp hm.2⟩
  · rintro ⟨t, ht, hres, hc⟩
    exact ⟨t, ht, (threadMatches_iff target t).mpr
      ⟨hres, (head_exists_of_le_one t.comments (h t ht) _).mpr hc⟩⟩

/-- Witness for the amended C2: one unresolved thread whose single comment's
author is the suffix-stripped form of the target. -/
theorem checkUnresolvedComments_match_characterization_witness :
    (∀ t ∈ [ReviewThread.mk false [Comment.mk "copilot"]],
       t.comments.length ≤ 1) ∧
    (checkUnresolvedComments [ReviewThread.mk false [Comment.mk "copilot"]]
        "copilot[bot]" = false ↔
      ∃ t ∈ [ReviewThread.mk false [Comment.mk "copilot"]],
        t.isResolved = false ∧ ∃ c, t.comments.head? = some c ∧
          (c.authorLogin = "copilot[bot]" ∨
           c.authorLogin = botCandidate "copilot[bot]")) :=
  ⟨by decide,
   checkUnresolvedComments_match_characterization
     [ReviewThread.mk false [Comment.mk "copilot"]] "copilot[bot]"
     (by decide)⟩

/-- Counterexample to C2 as stated: for target login "a[bot]b", whose
"[bot]" occurrence is not trailing, the code's filter matches author "ab"
(first occurrence removed) while the claim's trailing-suffix rule does not
— the evaluator reports a gate-failing match the claim says cannot
happen. -/
theorem trailing_strip_counterexample :
    threadMatches "a[bot]b" (ReviewThread.mk false [Comment.mk "ab"]) =
      true ∧
    specThreadMatches "a[bot]b" (ReviewThread.mk false [Comment.mk "ab"]) =
      false ∧
    checkUnresolvedComments [ReviewThread.mk false [Comment.mk "ab"]]
      "a[bot]b" = false := by
  decide

/-- Claim C8: the pending-review check compares author logins by exact
string equality with no "[bot]" normalization: if no review author equals
the target exactly, the result is false even when some author equals the
suffix-stripped form; concretely a PENDING review recorded under "copilot"
does not count for target "copilot[bot]", while the thread evaluator does
match author "copilot" for that same target. -/
theorem isPendingReview_exact_equality (reviews : List Review)
    (target : String) (h : ∀ review ∈ reviews, review.userLogin ≠ target) :
    isPendingReview reviews target = false ∧
    isPendingReview [Review.mk "copilot" "PENDING"] "copilot[bot]" =
      false ∧
    threadMatches "copilot[bot]"
      (ReviewThread.mk false [Comment.mk "copilot"]) = true := by
  refine ⟨?_, by decide, by decide⟩
  cases hb : isPendingReview reviews target
  · rfl
  · obtain ⟨review, hrev, hand⟩ := List.any_eq_true.mp hb
    simp only [Bool.and_eq_true, beq_iff_eq] at hand
    exact absurd hand.1 (h review hrev)

/-- Witness for C8: one non-PENDING review under the exact target login is
replaced by a suffix-stripped PENDING review, which does not count. -/
theorem isPendingReview_exact_equality_witness :
    (∀ review ∈ [Review.mk "copilot" "APPROVED"],
       review.userLogin ≠ "copilot[bot]") ∧
    (isPendingReview [Review.mk "copilot" "APPROVED"] "copilot[bot]" =
       false ∧
     isPendingReview [Review.mk "copilot" "PENDING"] "copilot[bot]" =
       false ∧
     threadMatches "copilot[bot]"
       (ReviewThread.mk false [Comment.mk "copilot"]) = true) :=
  ⟨by decide,
   isPendingReview_exact_equality [Review.mk "copilot" "APPROVED"]
     "copilot[bot]" (by decide)⟩

/-- Claim C9: the match candidate used by the thread filter is the target
login with only the first occurrence of the literal substring "[bot]"
removed, wherever it occurs and at most once: "copilot[bot]" gives
"copilot", "a[bot]b" gives "ab", "x[bot][bot]" gives "x[bot]", and the
evaluator accordingly matches author "x[bot]" for target "x[bot][bot]". -/
theorem botCandidate_first_occurrence :
    botCandidate "copilot[bot]" = "copilot" ∧
    botCandidate "a[bot]b" = "ab" ∧
    botCandidate "x[bot][bot]" = "x[bot]" ∧
    threadMatches "x[bot][bot]"
      (ReviewThread.mk false [Comment.mk "x[bot]"]) = true := by
  decide

/-- Claim C10: when neither the pull_request_number input nor the CI
context yields an integer, the parsed number is NaN (`none`), which is
falsy and therefore listed among the missing required inputs: `main` takes
the configuration-error path, exit code 1, with no API Client call. -/
theorem unparseable_pr_number_config_error (r : RawInputs)
    (reviews : List Review) (tf : Except String (List ReviewThread))
    (h1 : parseIntJS r.inputPullRequestNumber = none)
    (h2 : r.contextIssueNumber = none) :
    resolvedPullRequestNumber r = none ∧
    "pullRequestNumber" ∈ missingInputs r ∧
    mainRun r reviews tf = (.configError (missingInputs r), []) ∧
    (mainRun r reviews tf).1.exitCode = 1 := by
  have hres : resolvedPullRequestNumber r = none := by
    unfold resolvedPullRequestNumber
    by_cases hc : r.inputPullRequestNumber ≠ ""
    · rw [if_pos hc]; exact h1
    · rw [if_neg hc]; exact h2
  have hmem : "pullRequestNumber" ∈ missingInputs r := by
    unfold missingInputs
    apply List.mem_map.mpr
    refine ⟨("pullRequestNumber",
      numFalsy (resolvedPullRequestNumber r)), ?_, rfl⟩
    apply List.mem_filter.mpr
    refine ⟨by simp, ?_⟩
    rw [hres]
    rfl
  have hne : missingInputs r ≠ [] := List.ne_nil_of_mem hmem
  have h3 : mainRun r reviews tf = (.configError (missingInputs r), []) := by
    unfold mainRun
    rw [if_pos hne]
  exact ⟨hres, hmem, h3, by rw [h3]; rfl⟩

/-- Witness for C10: input "abc" does not parse and the event context has
no issue number. -/
theorem unparseable_pr_number_config_error_witness :
    parseIntJS "abc" = none ∧
    (RawInputs.mk "tok" "o" "r" "abc" "t" none "" "" none).contextIssueNumber
      = none ∧
    (resolvedPullRequestNumber
       (RawInputs.mk "tok" "o" "r" "abc" "t" none "" "" none) = none ∧
     "pullRequestNumber" ∈
       missingInputs (RawInputs.mk "tok" "o" "r" "abc" "t" none "" "" none) ∧
     mainRun (RawInputs.mk "tok" "o" "r" "abc" "t" none "" "" none) []
         (Except.ok []) =
       (.configError (missingInputs
          (RawInputs.mk "tok" "o" "r" "abc" "t" none "" "" none)), []) ∧
     (mainRun (RawInputs.mk "tok" "o" "r" "abc" "t" none "" "" none) []
         (Except.ok [])).1.exitCode = 1) :=
  ⟨by decide, rfl,
   unparseable_pr_number_config_error
     (RawInputs.mk "tok" "o" "r" "abc" "t" none "" "" none) []
     (Except.ok []) (by decide) rfl⟩

end Checker
